import Mathlib

/-!
Shallow embedding of the bootstrap/transport-composition pipeline of
`pod/state.GetNew` (file `src/pod/main.go`) together with the helper
`GetFreePort`.  Pure data and decisions are translated directly from the Go
source; interactions with the operating system (filesystem, kernel port
probe, TLS generation, routable-interface discovery, monetary-amount
parsing) are represented by oracles in an `Env` record, and the three
composed transport functions are represented by descriptor values recording
exactly which closure the Go code installed.
-/

namespace Pod

/-- Descriptor for the dial functions the Go code installs in
`StateCfg.Dial` / `StateCfg.Oniondial`: `direct` is `net.DialTimeout`,
`socks addr user pass iso` is `(&socks.Proxy{Addr: addr, Username: user,
Password: pass, TorIsolation: iso}).DialTimeout`, and `torDisabled` is the
closure installed at src/pod/main.go:490-496 that always returns the error
"tor has been disabled". -/
inductive DialFn where
  | direct : DialFn
  | socks (addr user pass : String) (iso : Bool) : DialFn
  | torDisabled : DialFn
deriving DecidableEq, Repr

/-- Descriptor for the lookup functions the Go code installs in
`StateCfg.Lookup`: `system` is `net.LookupIP` and `torLookup addr` is the
closure `func(host) { return connmgr.TorLookupIP(host, addr) }`. -/
inductive LookupFn where
  | system : LookupFn
  | torLookup (addr : String) : LookupFn
deriving DecidableEq, Repr

/-- Modelled from the spec: the fixed chain-parameter records of the external
`chaincfg` package (only the fields `GetNew` reads: the network name used at
src/pod/main.go:148 and 507, and the default P2P port used by auto-listen).
The four canonical variants are defined below and are never constructed
elsewhere. -/
structure ChainParams where
  name : String
  defaultPort : String
deriving DecidableEq, Repr

/-- Modelled from the spec: `chaincfg.MainNetParams`. -/
def mainNetParams : ChainParams := ⟨"mainnet", "mainport"⟩

/-- Modelled from the spec: `chaincfg.TestNet3Params`. -/
def testNet3Params : ChainParams := ⟨"testnet3", "testport"⟩

/-- Modelled from the spec: `chaincfg.RegressionTestParams`. -/
def regressionTestParams : ChainParams := ⟨"regtest", "regport"⟩

/-- Modelled from the spec: `chaincfg.SimNetParams`. -/
def simNetParams : ChainParams := ⟨"simnet", "simport"⟩

/-- Modelled from the spec: the configuration record handed to `GetNew`.
The external `pod/config` package (not under src/) stores each field behind
an opt type with `V()`-read, `Set()`-write, `Empty()`/`True()`/`False()`
tests; the spec describes these as plain values that the pipeline reads and
writes back only through defined mutation points, so fields are modelled as
plain values with functional update. Only the fields `GetNew` touches are
included, under their Go names. -/
structure Config where
  network : String
  lan : Bool
  solo : Bool
  logDir : String
  dataDir : String
  clientTLS : Bool
  serverTLS : Bool
  oneTimeTLSKey : Bool
  rpcKey : String
  rpcCert : String
  caFile : String
  profile : String
  addPeers : List String
  connectPeers : List String
  p2pListeners : List String
  rpcListeners : List String
  walletRPCListeners : List String
  p2pConnect : List String
  disableListen : Bool
  relayNonStd : Bool
  rejectNonStd : Bool
  username : String
  password : String
  limitUser : String
  limitPass : String
  userAgentComments : List String
  minRelayTxFee : String
  autoListen : Bool
  autoPorts : Bool
  disableDNSSeed : Bool
  disableRPC : Bool
  rpcMaxConcurrentReqs : Int
  proxyAddress : String
  proxyUser : String
  proxyPass : String
  onionEnabled : Bool
  onionProxyAddress : String
  onionProxyUser : String
  onionProxyPass : String
  torIsolation : Bool
  configFile : String
  runningCommand : String
deriving DecidableEq, Repr

/-- Mutable state threaded through the pipeline: the borrowed configuration,
the selected network parameters, the process-wide `fork.IsTestnet` flag, the
set of files present on disk, `StateCfg.Save`, the three transport-function
slots (nil pointers in Go until the composition stage assigns them), and the
value of the named error return `e` that is still pending at the point the
state is observed (src/pod/main.go:451-456 assigns `e` without returning). -/
structure St where
  cfg : Config
  activeNet : ChainParams
  isTestnet : Bool
  fs : List String
  saveFlag : Bool
  dial : Option DialFn
  lookup : Option LookupFn
  oniondial : Option DialFn
  pendingErr : Option String
deriving DecidableEq, Repr

/-- Oracles for every interaction `GetNew` has with the operating system and
with external packages: the initial set of files on disk
(`apputil.FileExists`), `os.MkdirAll` success per directory,
`util.NewTLSCertPair` and `tls.X509KeyPair` success, `ioutil.WriteFile` and
`WriteToFile` success per path, `GetFreePort` results by call index,
`routeable.GetAddressesAndInterfaces` addresses, and `amt.NewAmount` parse
success per fee string. -/
structure Env where
  files : List String
  mkdirOk : String → Bool
  tlsGenOk : Bool
  keyPairOk : Bool
  writeOk : String → Bool
  freePorts : Nat → Option Nat
  routableAddrs : List String
  amountOk : String → Bool

/-- Result of running the pipeline (or one of its stages): `fatal` models the
`os.Exit` calls, `err` models an early `return` with the named error `e` set,
and `ok` models falling through; every constructor carries the state at that
point so that write-backs to the caller's configuration stay observable. -/
inductive StepRes where
  | fatal (msg : String) (st : St) : StepRes
  | err (msg : String) (st : St) : StepRes
  | ok (st : St) : StepRes
deriving DecidableEq, Repr

/-- Sequencing of pipeline stages: a `fatal` or `err` outcome short-circuits
exactly like the Go early returns. -/
def StepRes.andThen (r : StepRes) (f : St → StepRes) : StepRes :=
  match r with
  | .fatal m st => .fatal m st
  | .err m st => .err m st
  | .ok st => f st

/-- State carried by a result (every constructor carries one). -/
def StepRes.state : StepRes → St
  | .fatal _ st => st
  | .err _ st => st
  | .ok st => st

/-- True when the pipeline fell through to its final naked `return`
(src/pod/main.go:511) or the kopach return (line 500) instead of aborting
early. -/
def StepRes.isCompleted : StepRes → Bool
  | .ok _ => true
  | _ => false

/-- True when the pipeline terminated by `os.Exit`. -/
def StepRes.isFatal : StepRes → Bool
  | .fatal _ _ => true
  | _ => false

/-- True when `GetNew` returns with a nil error: it must have completed and
the named error `e` must not have been left set by the onion-proxy address
check at src/pod/main.go:450-456. -/
def StepRes.returnsSuccessfully (r : StepRes) : Bool :=
  match r with
  | .ok st => st.pendingErr = none
  | _ => false

/-- Splitting of a character list at every occurrence of a separator
character (the groups, separators dropped). -/
def splitOnChar (c : Char) : List Char → List (List Char)
  | [] => [[]]
  | a :: rest =>
      let r := splitOnChar c rest
      if a = c then [] :: r
      else
        match r with
        | [] => [[a]]
        | g :: gs => (a :: g) :: gs

/-- Model of Go `net.SplitHostPort`: an unbracketed address must contain
exactly one colon separating host and port; a bracketed IPv6 host `[h]:p`
has its brackets stripped and the port part must be colon-free; anything
else (no colon, too many colons, stray brackets) is an error. -/
def splitHostPort (s : String) : Option (String × String) :=
  match s.data with
  | '[' :: rest =>
      match splitOnChar ']' rest with
      | [h, t] =>
          match t with
          | ':' :: p =>
              if (p.filter (fun c => c == ':')).length = 0 then
                some (h.asString, p.asString)
              else none
          | _ => none
      | _ => none
  | cs =>
      match splitOnChar ':' cs with
      | [h, p] => some (h.asString, p.asString)
      | _ => none

/-- Model of Go `net.JoinHostPort`: brackets are added around hosts that
contain a colon. -/
def joinHostPort (h p : String) : String :=
  if h.data.any (fun c => c == ':') then "[" ++ h ++ "]:" ++ p
  else h ++ ":" ++ p

/-- Model of the directory part of Go `filepath.Split`: everything up to and
including the last slash. -/
def dirOf (p : String) : String :=
  ((p.data.reverse.dropWhile (fun c => !(c == '/'))).reverse).asString

/-- Model of Go `strconv.Atoi`: an optional sign followed by at least one
decimal digit. -/
def parseDecAux : List Char → Nat → Option Nat
  | [], acc => some acc
  | c :: rest, acc =>
      if c.isDigit then parseDecAux rest (acc * 10 + (c.toNat - 48))
      else none

/-- Model of Go `strconv.Atoi`, signed entry point. -/
def atoi (s : String) : Option Int :=
  match s.data with
  | [] => none
  | '-' :: rest =>
      match rest with
      | [] => none
      | _ => (parseDecAux rest 0).map (fun n => -(n : Int))
  | '+' :: rest =>
      match rest with
      | [] => none
      | _ => (parseDecAux rest 0).map (fun n => (n : Int))
  | l => (parseDecAux l 0).map (fun n => (n : Int))

/-- Successful `ioutil.WriteFile`: the path is now present on disk. -/
def fsWrite (p : String) (fs : List String) : List String :=
  if p ∈ fs then fs else p :: fs

/-- Model of `os.Remove` on the deletion path: the path is no longer present.
The Go code logs and ignores a removal error, so removal is modelled as the
state in which the operating system accepted the request. -/
def fsRemove (p : String) (fs : List String) : List String :=
  fs.filter (fun q => !(q == p))

/-- Network selector of src/pod/main.go:130-147: maps the network token to
the chain parameters and reports whether the branch assigns
`fork.IsTestnet = true`. Unrecognized tokens (including the empty string)
fall through to main with only a debug log. -/
def selectNetwork (n : String) : ChainParams × Bool :=
  if n = "testnet" ∨ n = "testnet3" ∨ n = "t" then (testNet3Params, true)
  else if n = "regtestnet" ∨ n = "regressiontest" ∨ n = "r" then
    (regressionTestParams, true)
  else if n = "simnet" ∨ n = "s" then (simNetParams, true)
  else (mainNetParams, false)

/-- Initial pipeline state: transport slots are nil, `StateCfg.Save` is
false, the filesystem is as the environment found it. -/
def initSt (cfg : Config) (env : Env) : St :=
  { cfg := cfg, activeNet := mainNetParams, isTestnet := false,
    fs := env.files, saveFlag := false, dial := none, lookup := none,
    oniondial := none, pendingErr := none }

/-- Pipeline step for the network switch (src/pod/main.go:129-147). -/
def networkStep (st : St) : St :=
  let r := selectNetwork st.cfg.network
  { st with activeNet := r.1, isTestnet := st.isTestnet || r.2 }

/-- LAN/Solo-on-mainnet check (src/pod/main.go:148-152): returns an error. -/
def lanSoloStep (st : St) : StepRes :=
  if (st.cfg.lan = true ∨ st.cfg.solo = true) ∧ st.activeNet.name = "mainnet"
  then .err "neither Solo or LAN can be active on mainnet" st
  else .ok st

/-- Log-directory normalization (src/pod/main.go:159-161). -/
def logDirStep (st : St) : St :=
  if st.cfg.logDir = st.cfg.dataDir then
    { st with cfg := { st.cfg with
        logDir := st.cfg.dataDir ++ "/" ++ st.activeNet.name } }
  else st

/-- TLS credential provisioner (src/pod/main.go:162-229). Returns the error
message (if any) and the resulting set of files on disk. A failed write
leaves the filesystem unchanged; the cleanup paths mirror the source: a cert
write failure removes the cert path, a CA write failure removes the cert
path, and a key write failure removes the cert path and then the CA path. -/
def tlsProvision (cfg : Config) (env : Env) (fs : List String) :
    Option String × List String :=
  if (cfg.clientTLS = true ∨ cfg.serverTLS = true) ∧
      ((cfg.rpcKey ∉ fs ∧ cfg.oneTimeTLSKey = false) ∨
        cfg.rpcCert ∉ fs ∨ cfg.caFile ∉ fs) then
    if env.mkdirOk (dirOf cfg.rpcCert) = false then
      (some "mkdir cert dir failed", fs)
    else if env.mkdirOk (dirOf cfg.rpcKey) = false then
      (some "mkdir key dir failed", fs)
    else if env.tlsGenOk = false then
      (some "NewTLSCertPair failed", fs)
    else if env.keyPairOk = false then
      (some "X509KeyPair failed", fs)
    else if env.writeOk cfg.rpcCert = false then
      (some "write cert failed", fsRemove cfg.rpcCert fs)
    else
      let fs1 := fsWrite cfg.rpcCert fs
      if env.writeOk cfg.caFile = false then
        (some "write ca failed", fsRemove cfg.rpcCert fs1)
      else
        let fs2 := fsWrite cfg.caFile fs1
        if env.writeOk cfg.rpcKey = false then
          (some "write key failed", fsRemove cfg.caFile (fsRemove cfg.rpcCert fs2))
        else (none, fsWrite cfg.rpcKey fs2)
  else (none, fs)

/-- Pipeline wrapper around the TLS provisioner. -/
def tlsStep (env : Env) (st : St) : StepRes :=
  match tlsProvision st.cfg env st.fs with
  | (some m, fs') => .err m { st with fs := fs' }
  | (none, fs') => .ok { st with fs := fs' }

/-- Profile-port validation (src/pod/main.go:232-243): `strconv.Atoi` plus
the range check, with error or out-of-range aborting. -/
def profileStep (st : St) : StepRes :=
  if st.cfg.profile = "" then .ok st
  else
    match atoi st.cfg.profile with
    | none => .err "the profile port must be between 1024 and 65535" st
    | some n =>
        if n < 1024 ∨ n > 65535 then
          .err "the profile port must be between 1024 and 65535" st
        else .ok st

/-- Mutually exclusive peer lists (src/pod/main.go:245-250). -/
def peersStep (st : St) : StepRes :=
  if st.cfg.addPeers.length > 0 ∧ st.cfg.connectPeers.length > 0 then
    .err "the addpeers and connectpeers options can not be both set" st
  else .ok st

/-- Force-disable listening when proxied or connect-only with no P2P
listeners (src/pod/main.go:252-255). -/
def disableListenStep (st : St) : St :=
  if (st.cfg.proxyAddress ≠ "" ∨ st.cfg.connectPeers.length > 0) ∧
      st.cfg.p2pListeners.length = 0 then
    { st with cfg := { st.cfg with disableListen := true } }
  else st

/-- Relay-policy conflict (src/pod/main.go:257-264). -/
def relayStep (st : St) : StepRes :=
  if st.cfg.relayNonStd = true ∧ st.cfg.rejectNonStd = true then
    .err "rejectnonstd and relaynonstd cannot be used together" st
  else .ok st

/-- Admin/limited username collision (src/pod/main.go:266-273): `os.Exit(1)`. -/
def userStep (st : St) : StepRes :=
  if st.cfg.username ≠ "" ∧ st.cfg.username = st.cfg.limitUser then
    .fatal "--username and --limituser must not specify the same username" st
  else .ok st

/-- Admin/limited password collision (src/pod/main.go:274-281): `os.Exit(1)`. -/
def passStep (st : St) : StepRes :=
  if st.cfg.password ≠ "" ∧ st.cfg.password = st.cfg.limitPass then
    .fatal "password and limitpass must not specify the same password" st
  else .ok st

/-- User-agent comment character check (src/pod/main.go:283-293):
`os.Exit(1)` when any comment contains one of the four characters. -/
def commentsStep (st : St) : StepRes :=
  if st.cfg.userAgentComments.any
      (fun c => c.data.any
        (fun ch => ch == '/' || ch == ':' || ch == '(' || ch == ')'))
  then .fatal "invalid characters in user agent comments" st
  else .ok st

/-- Minimum-relay-fee parse (src/pod/main.go:295-303): `os.Exit(0)` on a
parse failure of the external `amt.NewAmount`. -/
def feeStep (env : Env) (st : St) : StepRes :=
  if env.amountOk st.cfg.minRelayTxFee = false then
    .fatal "invalid minrelaytxfee" st
  else .ok st

/-- Auto-listen (src/pod/main.go:304-320): derive P2P addresses from the
routable interfaces with the chain default port and mark for saving. -/
def autoListenStep (env : Env) (st : St) : St :=
  if st.cfg.autoListen = true then
    let addrs := env.routableAddrs.map
      (fun a => joinHostPort a st.activeNet.defaultPort)
    let cfg' := { st.cfg with p2pConnect := addrs, p2pListeners := addrs }
    { st with cfg := cfg', saveFlag := true }
  else st

/-- Core of the auto-ports rewrite (src/pod/main.go:331-343) on one listener
list: each entry is split as host:port, a `GetFreePort` probe (the `k`-th
call overall, answered by the oracle) supplies the new port, and the entry
is rebuilt with the original host. The first failure aborts. -/
def allocList (l : List String) (fp : Nat → Option Nat) (k : Nat) :
    Except String (List String × Nat) :=
  match l with
  | [] => .ok ([], k)
  | a :: rest =>
      match splitHostPort a with
      | none => .error "SplitHostPort failed"
      | some hp =>
          match fp k with
          | none => .error "GetFreePort failed"
          | some port =>
              match allocList rest fp (k + 1) with
              | .error m => .error m
              | .ok (res, k') =>
                  .ok (joinHostPort hp.1 (toString port) :: res, k')

/-- Auto-ports (src/pod/main.go:322-355): rewrite the three listener lists
in order (P2P, RPC, wallet RPC) with one free-port probe per entry, commit
all three lists only after every entry succeeded, and mark for saving; any
failure aborts the bootstrap with the lists untouched. -/
def autoPortsStep (env : Env) (st : St) : StepRes :=
  if st.cfg.autoPorts = true then
    match allocList st.cfg.p2pListeners env.freePorts 0 with
    | .error m => .err m st
    | .ok (p2p', k1) =>
        match allocList st.cfg.rpcListeners env.freePorts k1 with
        | .error m => .err m st
        | .ok (rpc', k2) =>
            match allocList st.cfg.walletRPCListeners env.freePorts k2 with
            | .error m => .err m st
            | .ok (w', _) =>
                let cfg' := { st.cfg with p2pListeners := p2p', rpcListeners := rpc', walletRPCListeners := w' }
                .ok { st with cfg := cfg', saveFlag := true }
  else .ok st

/-- DNS seeding disabled in LAN/Solo test modes (src/pod/main.go:356-360). -/
def dnsSeedStep (st : St) : St :=
  if st.cfg.lan = true ∨ st.cfg.solo = true then
    { st with cfg := { st.cfg with disableDNSSeed := true } }
  else st

/-- RPC force-disabled without any login (src/pod/main.go:362-367). -/
def rpcLoginStep (st : St) : St :=
  if (st.cfg.username = "" ∨ st.cfg.password = "") ∧
      (st.cfg.limitUser = "" ∨ st.cfg.limitPass = "") then
    { st with cfg := { st.cfg with disableRPC := true } }
  else st

/-- Non-negative RPC concurrency check (src/pod/main.go:368-376). -/
def rpcMaxStep (st : St) : StepRes :=
  if st.cfg.rpcMaxConcurrentReqs < 0 then
    .err "rpcmaxwebsocketconcurrentrequests may not be less than 0" st
  else .ok st

/-- Write-back of src/pod/main.go:411-414: with onion routing disabled the
onion-proxy address field of the caller's configuration is reset to the
empty string (this runs inside the proxy-configured branch). -/
def onionProxyReset (c : Config) : Config :=
  if c.onionEnabled = true then c else { c with onionProxyAddress := "" }

/-- Second half of the transport composition (src/pod/main.go:449-496): the
onion-proxy address check whose failure only assigns the named error `e`
without returning, the unconditional onion dial wrapper, the lookup override
taken whenever a primary proxy is set, the aliasing of the onion dial to the
plain dial when no proxy is set, and the final Tor-disabled override. -/
def composeOnion (st : St) : StepRes :=
  let pe :=
    if st.cfg.onionProxyAddress ≠ "" then
      if splitHostPort st.cfg.onionProxyAddress = none then
        some "onion proxy address is invalid"
      else none
    else st.pendingErr
  let od := DialFn.socks st.cfg.onionProxyAddress st.cfg.onionProxyUser
    st.cfg.onionProxyPass st.cfg.torIsolation
  let st1 := { st with pendingErr := pe, oniondial := some od }
  let st2 :=
    if st1.cfg.proxyAddress ≠ "" then
      { st1 with lookup := some (LookupFn.torLookup st1.cfg.onionProxyAddress) }
    else { st1 with oniondial := st1.dial }
  let st3 :=
    if st2.cfg.onionEnabled = false then
      { st2 with oniondial := some DialFn.torDisabled }
    else st2
  .ok st3

/-- Transport composition (src/pod/main.go:377-496): baseline direct dial
and system lookup; when a proxy is configured, its address must parse,
the literally-translated (and unsatisfiable) isolation check runs, the
onion-proxy reset and the credential-override flag are computed, the dial
becomes the SOCKS wrapper, and the lookup is re-bound through the proxy when
onion routing is on with no distinct onion proxy; then `composeOnion`. -/
def composeStage (st : St) : StepRes :=
  let st := { st with dial := some DialFn.direct,
                      lookup := some LookupFn.system }
  if st.cfg.proxyAddress = "" then composeOnion st
  else
    match splitHostPort st.cfg.proxyAddress with
    | none => .err "proxy address is invalid" st
    | some _ =>
        if st.cfg.torIsolation = true ∧ st.cfg.proxyAddress = "" ∧
            st.cfg.onionProxyAddress = "" then
          .err "Tor stream isolation requires either proxy or onionproxy" st
        else
          let cfg' := onionProxyReset st.cfg
          let iso : Bool :=
            st.cfg.torIsolation && (cfg'.onionProxyAddress == "") &&
              (!(st.cfg.proxyUser == "") || !(st.cfg.proxyPass == ""))
          let dial' := DialFn.socks st.cfg.proxyAddress st.cfg.proxyUser
            st.cfg.proxyPass iso
          let lookup' :=
            if cfg'.onionEnabled = true ∧ cfg'.onionProxyAddress = "" then
              some (LookupFn.torLookup st.cfg.proxyAddress)
            else st.lookup
          composeOnion { st with cfg := cfg', dial := some dial', lookup := lookup' }

/-- Final testnet recheck (src/pod/main.go:507-509). -/
def testnetRecheck (st : St) : St :=
  if st.activeNet.name = testNet3Params.name then
    { st with isTestnet := true }
  else st

/-- Persist-configuration decision (src/pod/main.go:497-511): save when a
listener mutation occurred or no config file exists, except that the kopach
subcommand returns without writing (and without the testnet recheck); a
write failure is checked into a shadowing inner error and ignored. -/
def persistStage (env : Env) (st : St) : StepRes :=
  if st.saveFlag = true ∨ st.cfg.configFile ∉ st.fs then
    let st1 := { st with saveFlag := false }
    if st1.cfg.runningCommand = "kopach" then .ok st1
    else
      let st2 :=
        if env.writeOk st1.cfg.configFile then
          { st1 with fs := fsWrite st1.cfg.configFile st1.fs }
        else st1
      .ok (testnetRecheck st2)
  else .ok (testnetRecheck st)

/-- Early validation stage of `GetNew` (src/pod/main.go:129-303): network
selection, LAN/Solo check, log-dir normalization, TLS provisioning, profile
port, peer-list conflict, listen disabling, relay-policy conflict, the two
fatal credential checks, user-agent comments, and the relay fee. -/
def validateStage (cfg : Config) (env : Env) : StepRes :=
  let st1 := networkStep (initSt cfg env)
  (lanSoloStep st1).andThen (fun st2 =>
    let st3 := logDirStep st2
    (tlsStep env st3).andThen (fun st4 =>
      (profileStep st4).andThen (fun st5 =>
        (peersStep st5).andThen (fun st6 =>
          let st7 := disableListenStep st6
          (relayStep st7).andThen (fun st8 =>
            (userStep st8).andThen (fun st9 =>
              (passStep st9).andThen (fun st10 =>
                (commentsStep st10).andThen (fun st11 =>
                  feeStep env st11))))))))

/-- Listener stage of `GetNew` (src/pod/main.go:304-376): auto-listen,
auto-ports, LAN/Solo DNS seeding, RPC login, RPC concurrency. -/
def listenStage (env : Env) (st : St) : StepRes :=
  let st1 := autoListenStep env st
  (autoPortsStep env st1).andThen (fun st2 =>
    let st3 := dnsSeedStep st2
    let st4 := rpcLoginStep st3
    rpcMaxStep st4)

/-- The whole of `state.GetNew` (src/pod/main.go:105-512) over the explicit
environment. -/
def GetNew (cfg : Config) (env : Env) : StepRes :=
  (((validateStage cfg env).andThen (listenStage env)).andThen
      composeStage).andThen (persistStage env)

/-- Invocation semantics of a dial descriptor: the connection oracle answers
actual network attempts by target address; the Tor-disabled closure never
consults it and fails immediately with its fixed error
(src/pod/main.go:490-496). -/
def dialEval (d : DialFn) (network addr : String) (timeout : Nat)
    (net : String → Option Unit) : Except String Unit :=
  match d with
  | .torDisabled => .error "tor has been disabled"
  | .direct =>
      match net addr with
      | some _ => .ok ()
      | none => .error ("dial " ++ network ++ " " ++ addr ++ " failed after "
          ++ toString timeout)
  | .socks proxyAddr _ _ _ =>
      match net proxyAddr with
      | some _ => .ok ()
      | none => .error ("dial " ++ network ++ " " ++ addr ++ " failed after "
          ++ toString timeout)

/-- Fields of the pipeline state that the validation and listener stages
never write: the proxy/onion/isolation configuration and the four
transport-composition slots. -/
def TransportUntouched (st st' : St) : Prop :=
  st'.cfg.proxyAddress = st.cfg.proxyAddress ∧
  st'.cfg.proxyUser = st.cfg.proxyUser ∧
  st'.cfg.proxyPass = st.cfg.proxyPass ∧
  st'.cfg.onionProxyAddress = st.cfg.onionProxyAddress ∧
  st'.cfg.onionProxyUser = st.cfg.onionProxyUser ∧
  st'.cfg.onionProxyPass = st.cfg.onionProxyPass ∧
  st'.cfg.torIsolation = st.cfg.torIsolation ∧
  st'.cfg.onionEnabled = st.cfg.onionEnabled ∧
  st'.dial = st.dial ∧ st'.lookup = st.lookup ∧
  st'.oniondial = st.oniondial ∧ st'.pendingErr = st.pendingErr

theorem transportUntouched_refl (st : St) : TransportUntouched st st := by
  simp [TransportUntouched]

theorem transportUntouched_trans {a b c : St} (h1 : TransportUntouched a b)
    (h2 : TransportUntouched b c) : TransportUntouched a c := by
  obtain ⟨p1, p2, p3, p4, p5, p6, p7, p8, p9, p10, p11, p12⟩ := h1
  obtain ⟨q1, q2, q3, q4, q5, q6, q7, q8, q9, q10, q11, q12⟩ := h2
  exact ⟨q1.trans p1, q2.trans p2, q3.trans p3, q4.trans p4, q5.trans p5,
    q6.trans p6, q7.trans p7, q8.trans p8, q9.trans p9, q10.trans p10,
    q11.trans p11, q12.trans p12⟩

theorem andThen_ok {r : StepRes} {f : St → StepRes} {st' : St}
    (h : r.andThen f = .ok st') : ∃ s, r = .ok s ∧ f s = .ok st' := by
  cases r with
  | ok s => exact ⟨s, rfl, h⟩
  | fatal m s => simp [StepRes.andThen] at h
  | err m s => simp [StepRes.andThen] at h

theorem networkStep_untouched (st : St) :
    TransportUntouched st (networkStep st) := by
  simp [TransportUntouched, networkStep]

theorem logDirStep_untouched (st : St) :
    TransportUntouched st (logDirStep st) := by
  unfold logDirStep
  split <;> simp [TransportUntouched]

theorem disableListenStep_untouched (st : St) :
    TransportUntouched st (disableListenStep st) := by
  unfold disableListenStep
  split <;> simp [TransportUntouched]

theorem autoListenStep_untouched (env : Env) (st : St) :
    TransportUntouched st (autoListenStep env st) := by
  unfold autoListenStep
  split <;> simp [TransportUntouched]

theorem dnsSeedStep_untouched (st : St) :
    TransportUntouched st (dnsSeedStep st) := by
  unfold dnsSeedStep
  split <;> simp [TransportUntouched]

theorem rpcLoginStep_untouched (st : St) :
    TransportUntouched st (rpcLoginStep st) := by
  unfold rpcLoginStep
  split <;> simp [TransportUntouched]

theorem lanSoloStep_untouched {st st' : St} (h : lanSoloStep st = .ok st') :
    TransportUntouched st st' := by
  unfold lanSoloStep at h
  split at h <;> simp_all [TransportUntouched]

theorem tlsStep_untouched {env : Env} {st st' : St}
    (h : tlsStep env st = .ok st') : TransportUntouched st st' := by
  unfold tlsStep at h
  split at h
  · cases h
  · cases h
    simp [TransportUntouched]

theorem profileStep_untouched {st st' : St} (h : profileStep st = .ok st') :
    TransportUntouched st st' := by
  unfold profileStep at h
  split at h
  · simp_all [TransportUntouched]
  · split at h
    · simp_all
    · split at h <;> simp_all [TransportUntouched]

theorem peersStep_untouched {st st' : St} (h : peersStep st = .ok st') :
    TransportUntouched st st' := by
  unfold peersStep at h
  split at h <;> simp_all [TransportUntouched]

theorem relayStep_untouched {st st' : St} (h : relayStep st = .ok st') :
    TransportUntouched st st' := by
  unfold relayStep at h
  split at h <;> simp_all [TransportUntouched]

theorem userStep_untouched {st st' : St} (h : userStep st = .ok st') :
    TransportUntouched st st' := by
  unfold userStep at h
  split at h <;> simp_all [TransportUntouched]

theorem passStep_untouched {st st' : St} (h : passStep st = .ok st') :
    TransportUntouched st st' := by
  unfold passStep at h
  split at h <;> simp_all [TransportUntouched]

theorem commentsStep_untouched {st st' : St} (h : commentsStep st = .ok st') :
    TransportUntouched st st' := by
  unfold commentsStep at h
  split at h <;> simp_all [TransportUntouched]

theorem feeStep_untouched {env : Env} {st st' : St}
    (h : feeStep env st = .ok st') : TransportUntouched st st' := by
  unfold feeStep at h
  split at h <;> simp_all [TransportUntouched]

theorem autoPortsStep_untouched {env : Env} {st st' : St}
    (h : autoPortsStep env st = .ok st') : TransportUntouched st st' := by
  unfold autoPortsStep at h
  split at h
  · split at h
    · cases h
    · split at h
      · cases h
      · split at h
        · cases h
        · cases h
          simp [TransportUntouched]
  · cases h
    exact transportUntouched_refl st

theorem rpcMaxStep_untouched {st st' : St} (h : rpcMaxStep st = .ok st') :
    TransportUntouched st st' := by
  unfold rpcMaxStep at h
  split at h <;> simp_all [TransportUntouched]

theorem validateStage_untouched {cfg : Config} {env : Env} {st : St}
    (h : validateStage cfg env = .ok st) :
    TransportUntouched (initSt cfg env) st := by
  unfold validateStage at h
  obtain ⟨s2, h2, h⟩ := andThen_ok h
  obtain ⟨s4, h4, h⟩ := andThen_ok h
  obtain ⟨s5, h5, h⟩ := andThen_ok h
  obtain ⟨s6, h6, h⟩ := andThen_ok h
  obtain ⟨s8, h8, h⟩ := andThen_ok h
  obtain ⟨s9, h9, h⟩ := andThen_ok h
  obtain ⟨s10, h10, h⟩ := andThen_ok h
  obtain ⟨s11, h11, h⟩ := andThen_ok h
  refine transportUntouched_trans (networkStep_untouched _)
    (transportUntouched_trans (lanSoloStep_untouched h2)
      (transportUntouched_trans (logDirStep_untouched _)
        (transportUntouched_trans (tlsStep_untouched h4)
          (transportUntouched_trans (profileStep_untouched h5)
            (transportUntouched_trans (peersStep_untouched h6)
              (transportUntouched_trans (disableListenStep_untouched _)
                (transportUntouched_trans (relayStep_untouched h8)
                  (transportUntouched_trans (userStep_untouched h9)
                    (transportUntouched_trans (passStep_untouched h10)
                      (transportUntouched_trans (commentsStep_untouched h11)
                        (feeStep_untouched h)))))))))))

theorem listenStage_untouched {env : Env} {st st' : St}
    (h : listenStage env st = .ok st') : TransportUntouched st st' := by
  unfold listenStage at h
  obtain ⟨s2, h2, h⟩ := andThen_ok h
  exact transportUntouched_trans (autoListenStep_untouched env st)
    (transportUntouched_trans (autoPortsStep_untouched h2)
      (transportUntouched_trans (dnsSeedStep_untouched _)
        (transportUntouched_trans (rpcLoginStep_untouched _)
          (rpcMaxStep_untouched h))))

theorem persistStage_frame {env : Env} {st st' : St}
    (h : persistStage env st = .ok st') :
    st'.cfg = st.cfg ∧ st'.dial = st.dial ∧ st'.lookup = st.lookup ∧
      st'.oniondial = st.oniondial ∧ st'.pendingErr = st.pendingErr := by
  unfold persistStage testnetRecheck at h
  split at h
  · dsimp only at h
    split at h
    · cases h
      simp
    · split at h <;> split at h <;> (cases h; simp)
  · split at h <;> (cases h; simp)

theorem GetNew_ok_decomp {cfg : Config} {env : Env} {st : St}
    (h : GetNew cfg env = .ok st) :
    ∃ s1 s2 s3, validateStage cfg env = .ok s1 ∧ listenStage env s1 = .ok s2 ∧
      composeStage s2 = .ok s3 ∧ persistStage env s3 = .ok st := by
  unfold GetNew at h
  obtain ⟨s3, h3, hp⟩ := andThen_ok h
  obtain ⟨s2, h2, hc⟩ := andThen_ok h3
  obtain ⟨s1, h1, hl⟩ := andThen_ok h2
  exact ⟨s1, s2, s3, h1, hl, hc, hp⟩

/-- Sample configuration used by the concrete evaluations below: an
otherwise well-formed setup (valid credentials, fee, listeners, no test
modes, no TLS regeneration pending, config file already on disk). -/
def sampleCfg : Config :=
  { network := "", lan := false, solo := false, logDir := "ld",
    dataDir := "dd", clientTLS := false, serverTLS := false,
    oneTimeTLSKey := false, rpcKey := "k", rpcCert := "c", caFile := "ca",
    profile := "", addPeers := [], connectPeers := [],
    p2pListeners := ["h:1"], rpcListeners := ["h:2"],
    walletRPCListeners := ["h:3"], p2pConnect := [], disableListen := false,
    relayNonStd := false, rejectNonStd := false, username := "u",
    password := "p", limitUser := "lu", limitPass := "lp",
    userAgentComments := [], minRelayTxFee := "0.001", autoListen := false,
    autoPorts := false, disableDNSSeed := false, disableRPC := false,
    rpcMaxConcurrentReqs := 1, proxyAddress := "", proxyUser := "",
    proxyPass := "", onionEnabled := true, onionProxyAddress := "",
    onionProxyUser := "", onionProxyPass := "", torIsolation := false,
    configFile := "cf", runningCommand := "node" }

/-- Sample environment in which every operating-system interaction
succeeds. -/
def sampleEnv : Env :=
  { files := ["cf"], mkdirOk := fun _ => true, tlsGenOk := true,
    keyPairOk := true, writeOk := fun _ => true,
    freePorts := fun n => some (42000 + n), routableAddrs := [],
    amountOk := fun _ => true }

/-- C9: the network selector maps each recognized token class to its fixed
chain-parameter record (the test aliases additionally set the
`fork.IsTestnet` flag), maps every unrecognized token including the empty
string to the main-network parameters without an error, and always returns
one of the four fixed variants (src/pod/main.go:129-147). -/
theorem C9_networkSelector (n : String) :
    ((n = "testnet" ∨ n = "testnet3" ∨ n = "t") →
      selectNetwork n = (testNet3Params, true)) ∧
    ((n = "regtestnet" ∨ n = "regressiontest" ∨ n = "r") →
      selectNetwork n = (regressionTestParams, true)) ∧
    ((n = "simnet" ∨ n = "s") → selectNetwork n = (simNetParams, true)) ∧
    (n ∉ ["testnet", "testnet3", "t", "regtestnet", "regressiontest", "r",
        "simnet", "s"] →
      selectNetwork n = (mainNetParams, false)) ∧
    ((selectNetwork n).1 = mainNetParams ∨
      (selectNetwork n).1 = testNet3Params ∨
      (selectNetwork n).1 = regressionTestParams ∨
      (selectNetwork n).1 = simNetParams) := by
  refine ⟨?_, ?_, ?_, ?_, ?_⟩
  · rintro (rfl | rfl | rfl) <;> decide
  · rintro (rfl | rfl | rfl) <;> decide
  · rintro (rfl | rfl) <;> decide
  · intro h
    simp only [List.mem_cons, List.not_mem_nil, or_false, not_or] at h
    obtain ⟨h1, h2, h3, h4, h5, h6, h7, h8⟩ := h
    simp [selectNetwork, h1, h2, h3, h4, h5, h6, h7, h8]
  · unfold selectNetwork
    split_ifs <;> simp

/-- Witness for C9 at the token "testnet" and an unrecognized token. -/
theorem C9_networkSelector_witness :
    selectNetwork "testnet" = (testNet3Params, true) ∧
    selectNetwork "bogus" = (mainNetParams, false) :=
  ⟨(C9_networkSelector "testnet").1 (Or.inl rfl),
   (C9_networkSelector "bogus").2.2.2.1 (by decide)⟩

/-- C1 is refuted by the code: with proxy `127.0.0.1:9050`, an empty
onion-proxy address and onion routing enabled, the pipeline completes but
the final lookup override of src/pod/main.go:481-485 (whose own comment
restricts it to bridge mode, both proxies configured) fires on the proxy
alone and re-binds `lookup` to `TorLookupIP` through the EMPTY onion-proxy
address instead of the primary proxy, and `onionDial` stays a SOCKS wrapper
over the empty onion-proxy address instead of being aliased to `dial`
(contradicting the comments at lines 434-435, 443-448 and 478-480). -/
theorem C1_proxyOnlyScenario_codeBug :
    (GetNew { sampleCfg with proxyAddress := "127.0.0.1:9050" }
        sampleEnv).isCompleted = true ∧
    (GetNew { sampleCfg with proxyAddress := "127.0.0.1:9050" }
        sampleEnv).state.lookup = some (LookupFn.torLookup "") ∧
    (GetNew { sampleCfg with proxyAddress := "127.0.0.1:9050" }
        sampleEnv).state.lookup ≠
      some (LookupFn.torLookup "127.0.0.1:9050") ∧
    (GetNew { sampleCfg with proxyAddress := "127.0.0.1:9050" }
        sampleEnv).state.oniondial = some (DialFn.socks "" "" "" false) ∧
    (GetNew { sampleCfg with proxyAddress := "127.0.0.1:9050" }
        sampleEnv).state.oniondial ≠
      (GetNew { sampleCfg with proxyAddress := "127.0.0.1:9050" }
        sampleEnv).state.dial := by
  decide

/-- C3 is refuted by the code: with the Tor-isolation flag set and both
proxy addresses empty, the bootstrap completes successfully instead of
aborting; the isolation check of src/pod/main.go:402-410 sits inside the
`ProxyAddress` non-empty branch and additionally requires `ProxyAddress` to
be empty, so it can never fire. -/
theorem C3_isolationWithoutTransport_codeBug :
    (GetNew { sampleCfg with torIsolation := true } sampleEnv).isCompleted
        = true ∧
    (GetNew { sampleCfg with torIsolation := true }
        sampleEnv).returnsSuccessfully = true ∧
    (GetNew { sampleCfg with torIsolation := true } sampleEnv).isFatal
        = false := by
  decide

/-- Bridge-mode computation of the composition stage, shared by the
bridge-mode claims: with a set, parsable proxy address, a distinct non-empty
onion-proxy address and onion routing enabled, the composed lookup goes
through the onion proxy and the onion dial wraps the onion proxy's
address, credentials and isolation flag. -/
theorem composeStage_bridge {st st' : St}
    (hp : st.cfg.proxyAddress ≠ "") (hq : st.cfg.onionProxyAddress ≠ "")
    (honion : st.cfg.onionEnabled = true)
    (h : composeStage st = .ok st') :
    st'.lookup = some (LookupFn.torLookup st.cfg.onionProxyAddress) ∧
    st'.oniondial = some (DialFn.socks st.cfg.onionProxyAddress
      st.cfg.onionProxyUser st.cfg.onionProxyPass st.cfg.torIsolation) := by
  unfold composeStage at h
  rw [if_neg (by simpa using hp)] at h
  rcases hsp : splitHostPort st.cfg.proxyAddress with _ | pr <;> rw [hsp] at h
  · cases h
  · rw [if_neg (by rintro ⟨_, hpe, _⟩; exact hp hpe)] at h
    unfold composeOnion at h
    simp only [onionProxyReset, honion, if_pos rfl, if_true] at h
    simp only [hq, honion] at h
    split at h <;> split at h <;> simp_all <;> cases h <;> simp

/-- C2: in bridge mode (primary proxy set, a distinct non-empty onion-proxy
set, onion routing enabled), whenever the bootstrap completes, the composed
lookup resolves through the onion-proxy address and not through the primary
proxy, and the composed onion dial is the SOCKS wrapper over the onion
proxy's address, credentials and isolation flag, independently of the dial
function (src/pod/main.go:466-476 and 480-485). -/
theorem C2_bridgeMode {cfg : Config} {env : Env} {st : St}
    (hp : cfg.proxyAddress ≠ "") (hq : cfg.onionProxyAddress ≠ "")
    (hdistinct : cfg.onionProxyAddress ≠ cfg.proxyAddress)
    (honion : cfg.onionEnabled = true)
    (h : GetNew cfg env = .ok st) :
    st.lookup = some (LookupFn.torLookup cfg.onionProxyAddress) ∧
    st.lookup ≠ some (LookupFn.torLookup cfg.proxyAddress) ∧
    st.oniondial = some (DialFn.socks cfg.onionProxyAddress
      cfg.onionProxyUser cfg.onionProxyPass cfg.torIsolation) := by
  obtain ⟨s1, s2, s3, hv, hl, hc, hpr⟩ := GetNew_ok_decomp h
  have hu := transportUntouched_trans (validateStage_untouched hv)
    (listenStage_untouched hl)
  obtain ⟨e1, e2, e3, e4, e5, e6, e7, e8, -, -, -, -⟩ := hu
  simp only [initSt] at e1 e2 e3 e4 e5 e6 e7 e8
  obtain ⟨hb1, hb2⟩ := @composeStage_bridge s2 s3
    (by rw [e1]; exact hp) (by rw [e4]; exact hq) (by rw [e8]; exact honion) hc
  obtain ⟨-, f2, f3, f4, -⟩ := persistStage_frame hpr
  rw [e4] at hb1 hb2
  rw [e5, e6, e7] at hb2
  refine ⟨f3.trans hb1, ?_, f4.trans hb2⟩
  rw [f3.trans hb1]
  simp [hdistinct]

/-- Bridge-mode configuration of the spec's scenario: proxy
`10.0.0.1:1080`, onion-proxy `127.0.0.1:9050`, onion routing enabled. -/
def bridgeCfg : Config :=
  { sampleCfg with proxyAddress := "10.0.0.1:1080", onionProxyAddress := "127.0.0.1:9050", onionProxyUser := "ou", torIsolation := true }

/-- Witness for C2 at the spec's bridge scenario proxy=`10.0.0.1:1080`,
onion-proxy=`127.0.0.1:9050`. -/
theorem C2_bridgeMode_witness :
    (GetNew bridgeCfg sampleEnv).state.lookup =
      some (LookupFn.torLookup "127.0.0.1:9050") ∧
    (GetNew bridgeCfg sampleEnv).state.oniondial =
      some (DialFn.socks "127.0.0.1:9050" "ou" "" true) := by
  have h := @C2_bridgeMode bridgeCfg sampleEnv
    ((GetNew bridgeCfg sampleEnv).state)
    (by decide) (by decide) (by decide) (by decide) (by decide)
  exact ⟨h.1, h.2.2⟩

/-- Onion half of the composition with onion routing disabled: the last
override of src/pod/main.go:489-496 installs the always-failing closure. -/
theorem composeOnion_torDisabled {st st' : St}
    (hoff : st.cfg.onionEnabled = false) (h : composeOnion st = .ok st') :
    st'.oniondial = some DialFn.torDisabled := by
  unfold composeOnion at h
  by_cases hpx : st.cfg.proxyAddress = "" <;>
    by_cases hopx : st.cfg.onionProxyAddress = "" <;>
    rcases hsp : splitHostPort st.cfg.onionProxyAddress with _ | v <;>
    simp only [hpx, hopx, hsp, hoff, ne_eq, not_true_eq_false,
      not_false_eq_true, if_true, if_false, ite_true, ite_false,
      reduceCtorEq, ↓reduceIte] at h <;>
    (cases h; rfl)

/-- Composition stage with onion routing disabled always ends with the
Tor-disabled onion dial (src/pod/main.go:489-496 runs last). -/
theorem composeStage_torDisabled {st st' : St}
    (hoff : st.cfg.onionEnabled = false) (h : composeStage st = .ok st') :
    st'.oniondial = some DialFn.torDisabled := by
  unfold composeStage at h
  dsimp only at h
  split at h
  · refine composeOnion_torDisabled ?_ h
    exact hoff
  · rename_i hpx
    rcases hsp : splitHostPort st.cfg.proxyAddress with _ | pr <;>
      rw [hsp] at h
    · cases h
    · rw [if_neg (by rintro ⟨-, hpe, -⟩; exact hpx hpe)] at h
      refine composeOnion_torDisabled ?_ h
      simp [onionProxyReset, hoff]

/-- C4: with onion routing disabled, whenever the bootstrap completes, the
composed onion dial is the Tor-disabled closure — the override is applied
after every other composition rule and wins regardless of proxy, onion-proxy
and isolation settings — and invoking that closure with any arguments fails
immediately with the "tor has been disabled" error without consulting the
network (src/pod/main.go:489-496). -/
theorem C4_onionDisabled {cfg : Config} {env : Env}
    (hoff : cfg.onionEnabled = false)
    (hdone : (GetNew cfg env).isCompleted = true) :
    (GetNew cfg env).state.oniondial = some DialFn.torDisabled ∧
    ∀ (network addr : String) (timeout : Nat) (net : String → Option Unit),
      dialEval DialFn.torDisabled network addr timeout net =
        .error "tor has been disabled" := by
  refine ⟨?_, fun _ _ _ _ => rfl⟩
  rcases hg : GetNew cfg env with ⟨m, s⟩ | ⟨m, s⟩ | s <;> rw [hg] at hdone <;>
    simp [StepRes.isCompleted] at hdone
  obtain ⟨s1, s2, s3, hv, hl, hc, hpr⟩ := GetNew_ok_decomp hg
  have hu := transportUntouched_trans (validateStage_untouched hv)
    (listenStage_untouched hl)
  obtain ⟨-, -, -, -, -, -, -, e8, -, -, -, -⟩ := hu
  simp only [initSt] at e8
  have h3 := composeStage_torDisabled (e8.trans hoff) hc
  obtain ⟨-, -, -, f4, -⟩ := persistStage_frame hpr
  exact f4.trans h3

/-- Witness for C4: onion routing disabled with a proxy configured. -/
theorem C4_onionDisabled_witness :
    (GetNew { sampleCfg with onionEnabled := false }
        sampleEnv).state.oniondial = some DialFn.torDisabled ∧
    dialEval DialFn.torDisabled "tcp" "abc.onion" 5 (fun _ => some ()) =
      Except.error "tor has been disabled" := by
  have h := @C4_onionDisabled { sampleCfg with onionEnabled := false }
    sampleEnv (by decide) (by decide)
  exact ⟨h.1, h.2 "tcp" "abc.onion" 5 (fun _ => some ())⟩

/-- Composition stage with a proxy configured and onion routing disabled:
the onion-proxy address write-back leaves the configuration's field empty
and the final lookup override then observes the empty address. -/
theorem composeStage_resetObserved {st st' : St}
    (hp : st.cfg.proxyAddress ≠ "") (hoff : st.cfg.onionEnabled = false)
    (h : composeStage st = .ok st') :
    st'.cfg.onionProxyAddress = "" ∧
    st'.lookup = some (LookupFn.torLookup "") := by
  unfold composeStage at h
  dsimp only at h
  rw [if_neg hp] at h
  rcases hsp : splitHostPort st.cfg.proxyAddress with _ | pr <;>
    rw [hsp] at h
  · cases h
  · rw [if_neg (by rintro ⟨-, hpe, -⟩; exact hp hpe)] at h
    unfold composeOnion at h
    simp only [onionProxyReset, hoff, Bool.false_eq_true, if_false,
      ite_false, ne_eq, not_true_eq_false, not_false_eq_true, ite_true,
      if_true, false_and, and_false] at h
    simp only [hp, not_false_eq_true, if_true, ite_true,
      reduceCtorEq, ↓reduceIte] at h
    cases h
    simp

/-- C10: when onion routing is disabled while a primary proxy is configured,
the completed pipeline has written the empty string back into the caller's
onion-proxy address field, the re-bound lookup observes that empty address,
and the write-back step `onionProxyReset` changes no other configuration
field (src/pod/main.go:411-414 and 480-485). -/
theorem C10_onionProxyWriteBack {cfg : Config} {env : Env} {st : St}
    (hp : cfg.proxyAddress ≠ "") (hoff : cfg.onionEnabled = false)
    (h : GetNew cfg env = .ok st) :
    st.cfg.onionProxyAddress = "" ∧
    st.lookup = some (LookupFn.torLookup "") ∧
    (∀ c : Config, c.onionEnabled = false →
      (onionProxyReset c).onionProxyAddress = "" ∧
      (onionProxyReset c).network = c.network ∧
      (onionProxyReset c).lan = c.lan ∧
      (onionProxyReset c).solo = c.solo ∧
      (onionProxyReset c).logDir = c.logDir ∧
      (onionProxyReset c).dataDir = c.dataDir ∧
      (onionProxyReset c).clientTLS = c.clientTLS ∧
      (onionProxyReset c).serverTLS = c.serverTLS ∧
      (onionProxyReset c).oneTimeTLSKey = c.oneTimeTLSKey ∧
      (onionProxyReset c).rpcKey = c.rpcKey ∧
      (onionProxyReset c).rpcCert = c.rpcCert ∧
      (onionProxyReset c).caFile = c.caFile ∧
      (onionProxyReset c).profile = c.profile ∧
      (onionProxyReset c).addPeers = c.addPeers ∧
      (onionProxyReset c).connectPeers = c.connectPeers ∧
      (onionProxyReset c).p2pListeners = c.p2pListeners ∧
      (onionProxyReset c).rpcListeners = c.rpcListeners ∧
      (onionProxyReset c).walletRPCListeners = c.walletRPCListeners ∧
      (onionProxyReset c).p2pConnect = c.p2pConnect ∧
      (onionProxyReset c).disableListen = c.disableListen ∧
      (onionProxyReset c).relayNonStd = c.relayNonStd ∧
      (onionProxyReset c).rejectNonStd = c.rejectNonStd ∧
      (onionProxyReset c).username = c.username ∧
      (onionProxyReset c).password = c.password ∧
      (onionProxyReset c).limitUser = c.limitUser ∧
      (onionProxyReset c).limitPass = c.limitPass ∧
      (onionProxyReset c).userAgentComments = c.userAgentComments ∧
      (onionProxyReset c).minRelayTxFee = c.minRelayTxFee ∧
      (onionProxyReset c).autoListen = c.autoListen ∧
      (onionProxyReset c).autoPorts = c.autoPorts ∧
      (onionProxyReset c).disableDNSSeed = c.disableDNSSeed ∧
      (onionProxyReset c).disableRPC = c.disableRPC ∧
      (onionProxyReset c).rpcMaxConcurrentReqs = c.rpcMaxConcurrentReqs ∧
      (onionProxyReset c).proxyAddress = c.proxyAddress ∧
      (onionProxyReset c).proxyUser = c.proxyUser ∧
      (onionProxyReset c).proxyPass = c.proxyPass ∧
      (onionProxyReset c).onionEnabled = c.onionEnabled ∧
      (onionProxyReset c).onionProxyUser = c.onionProxyUser ∧
      (onionProxyReset c).onionProxyPass = c.onionProxyPass ∧
      (onionProxyReset c).torIsolation = c.torIsolation ∧
      (onionProxyReset c).configFile = c.configFile ∧
      (onionProxyReset c).runningCommand = c.runningCommand) := by
  obtain ⟨s1, s2, s3, hv, hl, hc, hpr⟩ := GetNew_ok_decomp h
  have hu := transportUntouched_trans (validateStage_untouched hv)
    (listenStage_untouched hl)
  obtain ⟨e1, -, -, -, -, -, -, e8, -, -, -, -⟩ := hu
  simp only [initSt] at e1 e8
  obtain ⟨g1, g2⟩ := composeStage_resetObserved
    (by rw [e1]; exact hp) (by rw [e8]; exact hoff) hc
  obtain ⟨f1, -, f3, -, -⟩ := persistStage_frame hpr
  refine ⟨by rw [f1]; exact g1, f3.trans g2, ?_⟩
  intro c hc0
  simp [onionProxyReset, hc0]

/-- Witness for C10: proxy configured, onion routing disabled. -/
theorem C10_onionProxyWriteBack_witness :
    (GetNew { sampleCfg with proxyAddress := "10.0.0.1:1080", onionProxyAddress := "127.0.0.1:9050", onionEnabled := false }
        sampleEnv).state.cfg.onionProxyAddress = "" := by
  have h := @C10_onionProxyWriteBack
    { sampleCfg with proxyAddress := "10.0.0.1:1080", onionProxyAddress := "127.0.0.1:9050", onionEnabled := false }
    sampleEnv
    ((GetNew { sampleCfg with proxyAddress := "10.0.0.1:1080", onionProxyAddress := "127.0.0.1:9050", onionEnabled := false } sampleEnv).state)
    (by decide) (by decide) (by decide)
  exact h.1

/-- Onion half of the composition when the onion-proxy address is non-empty
and fails to parse: the named error is left set (src/pod/main.go:450-456)
and survives to the returned state. -/
theorem composeOnion_pendingErr {st st' : St}
    (hq : st.cfg.onionProxyAddress ≠ "")
    (hsp : splitHostPort st.cfg.onionProxyAddress = none)
    (h : composeOnion st = .ok st') :
    st'.pendingErr = some "onion proxy address is invalid" := by
  unfold composeOnion at h
  by_cases hpx : st.cfg.proxyAddress = "" <;>
    by_cases hon : st.cfg.onionEnabled = false <;>
    simp only [hpx, hon, hq, hsp, ne_eq, not_true_eq_false,
      not_false_eq_true, if_true, if_false, ite_true, ite_false,
      reduceCtorEq, ↓reduceIte] at h <;>
    (cases h; rfl)

/-- Composition stage with onion routing enabled and a non-empty, unparsable
onion-proxy address: when the stage completes, the pending error is set. -/
theorem composeStage_pendingErr {st st' : St}
    (hon : st.cfg.onionEnabled = true)
    (hq : st.cfg.onionProxyAddress ≠ "")
    (hsp : splitHostPort st.cfg.onionProxyAddress = none)
    (h : composeStage st = .ok st') :
    st'.pendingErr = some "onion proxy address is invalid" := by
  unfold composeStage at h
  dsimp only at h
  by_cases hpx : st.cfg.proxyAddress = ""
  · rw [if_pos hpx] at h
    refine composeOnion_pendingErr ?_ ?_ h
    · exact hq
    · exact hsp
  · rw [if_neg hpx] at h
    rcases hps : splitHostPort st.cfg.proxyAddress with _ | v <;>
      rw [hps] at h
    · cases h
    · rw [if_neg (by rintro ⟨-, hpe, -⟩; exact hpx hpe)] at h
      simp only [onionProxyReset, hon, eq_self_iff_true, if_true,
        ite_true] at h
      refine composeOnion_pendingErr ?_ ?_ h
      · exact hq
      · exact hsp

/-- C7 counterexample: with an onion-proxy address that does not parse as
host:port, the pipeline runs all its remaining steps to the final return,
yet `GetNew` does not return successfully — the parse error was stored in
the named error return at src/pod/main.go:451-456 and is returned at line
511, contradicting the claim that the failure is merely logged and the
bootstrap returns successfully. -/
theorem C7_onionParse_counterexample :
    (GetNew { sampleCfg with onionProxyAddress := "badonion" }
        sampleEnv).isCompleted = true ∧
    (GetNew { sampleCfg with onionProxyAddress := "badonion" }
        sampleEnv).returnsSuccessfully = false := by
  decide

/-- C7 as amended: a primary proxy address that fails to parse makes the
bootstrap abort early (the pipeline never completes), while a non-empty
onion-proxy address that fails to parse does not abort any step — but
whenever the pipeline completes its remaining steps, the parse error is
still returned by `GetNew`, so the bootstrap does not return successfully
(src/pod/main.go:386-396, 450-456, 511). -/
theorem C7_proxyAbortsOnionLingers (cfg : Config) (env : Env) :
    (cfg.proxyAddress ≠ "" → splitHostPort cfg.proxyAddress = none →
      (GetNew cfg env).isCompleted = false) ∧
    (cfg.onionEnabled = true → cfg.onionProxyAddress ≠ "" →
      splitHostPort cfg.onionProxyAddress = none →
      (GetNew cfg env).isCompleted = true →
      (GetNew cfg env).returnsSuccessfully = false) := by
  constructor
  · intro hp hsp
    rcases hg : GetNew cfg env with ⟨m, s⟩ | ⟨m, s⟩ | s
    · rfl
    · rfl
    · exfalso
      obtain ⟨s1, s2, s3, hv, hl, hc, hpr⟩ := GetNew_ok_decomp hg
      have hu := transportUntouched_trans (validateStage_untouched hv)
        (listenStage_untouched hl)
      obtain ⟨e1, -, -, -, -, -, -, -, -, -, -, -⟩ := hu
      simp only [initSt] at e1
      unfold composeStage at hc
      dsimp only at hc
      rw [e1, if_neg hp, hsp] at hc
      cases hc
  · intro hon hq hsp hdone
    rcases hg : GetNew cfg env with ⟨m, s⟩ | ⟨m, s⟩ | s <;>
      rw [hg] at hdone <;> simp [StepRes.isCompleted] at hdone
    obtain ⟨s1, s2, s3, hv, hl, hc, hpr⟩ := GetNew_ok_decomp hg
    have hu := transportUntouched_trans (validateStage_untouched hv)
      (listenStage_untouched hl)
    obtain ⟨-, -, -, e4, -, -, -, e8, -, -, -, -⟩ := hu
    simp only [initSt] at e4 e8
    have hpe := composeStage_pendingErr (e8.trans hon)
      (by rw [e4]; exact hq) (by rw [e4]; exact hsp) hc
    obtain ⟨-, -, -, -, f5⟩ := persistStage_frame hpr
    simp [StepRes.returnsSuccessfully, f5.trans hpe]

/-- Witness for C7 at a malformed primary proxy and at a malformed
onion-proxy address. -/
theorem C7_proxyAbortsOnionLingers_witness :
    (GetNew { sampleCfg with proxyAddress := "badproxy" }
        sampleEnv).isCompleted = false ∧
    (GetNew { sampleCfg with onionProxyAddress := "badonion" }
        sampleEnv).returnsSuccessfully = false :=
  ⟨(C7_proxyAbortsOnionLingers { sampleCfg with proxyAddress := "badproxy" }
      sampleEnv).1 (by decide) (by decide),
   (C7_proxyAbortsOnionLingers
      { sampleCfg with onionProxyAddress := "badonion" } sampleEnv).2
    (by decide) (by decide) (by decide) (by decide)⟩

/-- C8: an admin username that is non-empty and equal to the limited
username, or an admin password that is non-empty and equal to the limited
password, terminates the process fatally (`os.Exit(1)`,
src/pod/main.go:266-281) rather than returning an error, and it does so
before any transport composition: all three transport slots are still
unassigned at the point of exit. The other hypotheses state that the checks
preceding the credential checks pass. -/
theorem lanSoloStep_skip {st : St} (h1 : st.cfg.lan = false)
    (h2 : st.cfg.solo = false) : lanSoloStep st = .ok st := by
  unfold lanSoloStep
  rw [if_neg]
  rintro ⟨h | h, -⟩
  · rw [h1] at h
    cases h
  · rw [h2] at h
    cases h

theorem tlsStep_skip {env : Env} {st : St} (h1 : st.cfg.clientTLS = false)
    (h2 : st.cfg.serverTLS = false) : tlsStep env st = .ok st := by
  unfold tlsStep tlsProvision
  rw [if_neg]
  rintro ⟨h | h, -⟩
  · rw [h1] at h
    cases h
  · rw [h2] at h
    cases h

theorem profileStep_skip {st : St} (h : st.cfg.profile = "") :
    profileStep st = .ok st := by
  unfold profileStep
  rw [if_pos h]

theorem peersStep_skip {st : St} (h : st.cfg.addPeers = []) :
    peersStep st = .ok st := by
  unfold peersStep
  rw [if_neg]
  rintro ⟨h1, -⟩
  rw [h] at h1
  cases h1

theorem relayStep_skip {st : St} (h : st.cfg.relayNonStd = false) :
    relayStep st = .ok st := by
  unfold relayStep
  rw [if_neg]
  rintro ⟨h1, -⟩
  rw [h] at h1
  cases h1

theorem userStep_fatal {st : St}
    (h : st.cfg.username ≠ "" ∧ st.cfg.username = st.cfg.limitUser) :
    userStep st = .fatal
      "--username and --limituser must not specify the same username" st := by
  unfold userStep
  rw [if_pos h]

theorem userStep_skip {st : St}
    (h : ¬(st.cfg.username ≠ "" ∧ st.cfg.username = st.cfg.limitUser)) :
    userStep st = .ok st := by
  unfold userStep
  rw [if_neg h]

theorem passStep_fatal {st : St}
    (h : st.cfg.password ≠ "" ∧ st.cfg.password = st.cfg.limitPass) :
    passStep st = .fatal
      "password and limitpass must not specify the same password" st := by
  unfold passStep
  rw [if_pos h]

/-- Fields relevant to the early validation checks that the total steps
(network selection, log-dir normalization, listen disabling) never write,
together with the three transport slots. -/
def CredFrame (st st' : St) : Prop :=
  st'.cfg.clientTLS = st.cfg.clientTLS ∧
  st'.cfg.serverTLS = st.cfg.serverTLS ∧
  st'.cfg.profile = st.cfg.profile ∧
  st'.cfg.addPeers = st.cfg.addPeers ∧
  st'.cfg.relayNonStd = st.cfg.relayNonStd ∧
  st'.cfg.lan = st.cfg.lan ∧ st'.cfg.solo = st.cfg.solo ∧
  st'.cfg.username = st.cfg.username ∧
  st'.cfg.limitUser = st.cfg.limitUser ∧
  st'.cfg.password = st.cfg.password ∧
  st'.cfg.limitPass = st.cfg.limitPass ∧
  st'.dial = st.dial ∧ st'.lookup = st.lookup ∧ st'.oniondial = st.oniondial

theorem credFrame_logDirStep (st : St) : CredFrame st (logDirStep st) := by
  unfold logDirStep
  split <;> simp [CredFrame]

theorem credFrame_disableListenStep (st : St) :
    CredFrame st (disableListenStep st) := by
  unfold disableListenStep
  split <;> simp [CredFrame]

theorem C8_credentialCollisionFatal {cfg : Config} {env : Env}
    (hlan : cfg.lan = false) (hsolo : cfg.solo = false)
    (htls1 : cfg.clientTLS = false) (htls2 : cfg.serverTLS = false)
    (hprof : cfg.profile = "") (hpeers : cfg.addPeers = [])
    (hrelay : cfg.relayNonStd = false)
    (hcoll : (cfg.username ≠ "" ∧ cfg.username = cfg.limitUser) ∨
      (cfg.password ≠ "" ∧ cfg.password = cfg.limitPass)) :
    (GetNew cfg env).isFatal = true ∧
    (GetNew cfg env).state.dial = none ∧
    (GetNew cfg env).state.lookup = none ∧
    (GetNew cfg env).state.oniondial = none := by
  have hcfg1 : (networkStep (initSt cfg env)).cfg = cfg := rfl
  obtain ⟨a1, a2, a3, a4, a5, a6, a7, a8, a9, a10, a11, d1, d2, d3⟩ :=
    credFrame_logDirStep (networkStep (initSt cfg env))
  obtain ⟨b1, b2, b3, b4, b5, b6, b7, b8, b9, b10, b11, e1, e2, e3⟩ :=
    credFrame_disableListenStep (logDirStep (networkStep (initSt cfg env)))
  rw [hcfg1] at a1 a2 a3 a4 a5 a6 a7 a8 a9 a10 a11
  rw [a1] at b1; rw [a2] at b2; rw [a3] at b3; rw [a4] at b4
  rw [a5] at b5; rw [a8] at b8; rw [a9] at b9; rw [a10] at b10
  rw [a11] at b11
  have hnd : (networkStep (initSt cfg env)).dial = none := rfl
  have hnl : (networkStep (initSt cfg env)).lookup = none := rfl
  have hno : (networkStep (initSt cfg env)).oniondial = none := rfl
  have hlso := @lanSoloStep_skip (networkStep (initSt cfg env))
    (by rw [hcfg1]; exact hlan) (by rw [hcfg1]; exact hsolo)
  have htls := @tlsStep_skip env (logDirStep (networkStep (initSt cfg env)))
    (by rw [a1]; exact htls1) (by rw [a2]; exact htls2)
  have hpro := @profileStep_skip
    (logDirStep (networkStep (initSt cfg env))) (by rw [a3]; exact hprof)
  have hpee := @peersStep_skip
    (logDirStep (networkStep (initSt cfg env))) (by rw [a4]; exact hpeers)
  have hrel := @relayStep_skip
    (disableListenStep (logDirStep (networkStep (initSt cfg env))))
    (by rw [b5]; exact hrelay)
  have main : ∀ m stf, validateStage cfg env = .fatal m stf →
      (GetNew cfg env).isFatal = true ∧
      (GetNew cfg env).state.dial = stf.dial ∧
      (GetNew cfg env).state.lookup = stf.lookup ∧
      (GetNew cfg env).state.oniondial = stf.oniondial := by
    intro m stf hfat
    unfold GetNew
    rw [hfat]
    exact ⟨rfl, rfl, rfl, rfl⟩
  have hdial : (disableListenStep (logDirStep (networkStep
      (initSt cfg env)))).dial = none := by rw [e1, d1, hnd]
  have hlook : (disableListenStep (logDirStep (networkStep
      (initSt cfg env)))).lookup = none := by rw [e2, d2, hnl]
  have honi : (disableListenStep (logDirStep (networkStep
      (initSt cfg env)))).oniondial = none := by rw [e3, d3, hno]
  by_cases husr : cfg.username ≠ "" ∧ cfg.username = cfg.limitUser
  · have huf := @userStep_fatal
      (disableListenStep (logDirStep (networkStep (initSt cfg env))))
      (by rw [b8, b9]; exact husr)
    have hch : validateStage cfg env = .fatal
        "--username and --limituser must not specify the same username"
        (disableListenStep (logDirStep (networkStep (initSt cfg env)))) := by
      unfold validateStage
      dsimp only
      rw [hlso]
      dsimp only [StepRes.andThen]
      rw [htls]
      dsimp only [StepRes.andThen]
      rw [hpro]
      dsimp only [StepRes.andThen]
      rw [hpee]
      dsimp only [StepRes.andThen]
      rw [hrel]
      dsimp only [StepRes.andThen]
      rw [huf]
    obtain ⟨g1, g2, g3, g4⟩ := main _ _ hch
    exact ⟨g1, g2.trans hdial, g3.trans hlook, g4.trans honi⟩
  · rcases hcoll with hu | ⟨hq1, hq2⟩
    · exact absurd hu husr
    have hus := @userStep_skip
      (disableListenStep (logDirStep (networkStep (initSt cfg env))))
      (by rw [b8, b9]; exact husr)
    have hpf := @passStep_fatal
      (disableListenStep (logDirStep (networkStep (initSt cfg env))))
      (by rw [b10, b11]; exact ⟨hq1, hq2⟩)
    have hch : validateStage cfg env = .fatal
        "password and limitpass must not specify the same password"
        (disableListenStep (logDirStep (networkStep (initSt cfg env)))) := by
      unfold validateStage
      dsimp only
      rw [hlso]
      dsimp only [StepRes.andThen]
      rw [htls]
      dsimp only [StepRes.andThen]
      rw [hpro]
      dsimp only [StepRes.andThen]
      rw [hpee]
      dsimp only [StepRes.andThen]
      rw [hrel]
      dsimp only [StepRes.andThen]
      rw [hus]
      dsimp only [StepRes.andThen]
      rw [hpf]
    obtain ⟨g1, g2, g3, g4⟩ := main _ _ hch
    exact ⟨g1, g2.trans hdial, g3.trans hlook, g4.trans honi⟩

/-- Witness for C8 at a concrete username collision. -/
theorem C8_credentialCollisionFatal_witness :
    (GetNew { sampleCfg with username := "same", limitUser := "same" }
        sampleEnv).isFatal = true ∧
    (GetNew { sampleCfg with username := "same", limitUser := "same" }
        sampleEnv).state.dial = none := by
  have h := @C8_credentialCollisionFatal
    { sampleCfg with username := "same", limitUser := "same" }
    sampleEnv (by decide) (by decide) (by decide) (by decide)
    (by decide) (by decide) (by decide) (Or.inl (by decide))
  exact ⟨h.1, h.2.1⟩

/-- C5: when TLS provisioning is triggered and generation succeeds, a write
failure after files have already been written removes every file written so
far by the invocation before the error is surfaced: a CA-file write failure
removes the cert file, and a key-file write failure removes both the cert
file and the CA file, so neither remains on disk
(src/pod/main.go:198-227). -/
theorem C5_tlsCleanup (cfg : Config) (env : Env) (fs : List String)
    (htls : cfg.clientTLS = true ∨ cfg.serverTLS = true)
    (htrig : cfg.rpcCert ∉ fs)
    (hm1 : env.mkdirOk (dirOf cfg.rpcCert) = true)
    (hm2 : env.mkdirOk (dirOf cfg.rpcKey) = true)
    (hg : env.tlsGenOk = true) (hk : env.keyPairOk = true)
    (hw1 : env.writeOk cfg.rpcCert = true) :
    (env.writeOk cfg.caFile = false →
      (tlsProvision cfg env fs).1.isSome = true ∧
      cfg.rpcCert ∉ (tlsProvision cfg env fs).2) ∧
    (env.writeOk cfg.caFile = true → env.writeOk cfg.rpcKey = false →
      (tlsProvision cfg env fs).1.isSome = true ∧
      cfg.rpcCert ∉ (tlsProvision cfg env fs).2 ∧
      cfg.caFile ∉ (tlsProvision cfg env fs).2) := by
  have htrig' : (cfg.clientTLS = true ∨ cfg.serverTLS = true) ∧
      ((cfg.rpcKey ∉ fs ∧ cfg.oneTimeTLSKey = false) ∨
        cfg.rpcCert ∉ fs ∨ cfg.caFile ∉ fs) :=
    ⟨htls, Or.inr (Or.inl htrig)⟩
  constructor
  · intro hca
    unfold tlsProvision
    rw [if_pos htrig']
    simp [hm1, hm2, hg, hk, hw1, hca, fsRemove, List.mem_filter]
  · intro hca hkey
    unfold tlsProvision
    rw [if_pos htrig']
    simp [hm1, hm2, hg, hk, hw1, hca, hkey, fsRemove, List.mem_filter]

/-- Witness for C5: key-file write fails after cert and CA were written;
afterwards neither the cert path "c" nor the CA path "ca" is on disk. -/
theorem C5_tlsCleanup_witness :
    (tlsProvision { sampleCfg with clientTLS := true }
      { sampleEnv with writeOk := fun p => !(p == "k") } []).1.isSome
        = true ∧
    "c" ∉ (tlsProvision { sampleCfg with clientTLS := true }
      { sampleEnv with writeOk := fun p => !(p == "k") } []).2 ∧
    "ca" ∉ (tlsProvision { sampleCfg with clientTLS := true }
      { sampleEnv with writeOk := fun p => !(p == "k") } []).2 := by
  have h := C5_tlsCleanup { sampleCfg with clientTLS := true }
    { sampleEnv with writeOk := fun p => !(p == "k") } []
    (Or.inl (by decide)) (by decide) (by decide) (by decide) (by decide)
    (by decide) (by decide)
  exact h.2 (by decide) (by decide)

/-- Structure of a successful single-list allocation: the result keeps the
list's length, consumes one free-port probe per entry in order, and rebuilds
every entry from its original host and the probed port. -/
theorem allocList_ok_spec {l : List String} {fp : Nat → Option Nat}
    {k : Nat} {res : List String} {k' : Nat}
    (h : allocList l fp k = .ok (res, k')) :
    res.length = l.length ∧ k' = k + l.length ∧
    ∀ j (hj : j < l.length) (hr : j < res.length),
      ∃ host rest pn,
        splitHostPort (l.get ⟨j, hj⟩) = some (host, rest) ∧
        fp (k + j) = some pn ∧
        res.get ⟨j, hr⟩ = joinHostPort host (toString pn) := by
  induction l generalizing k res k' with
  | nil =>
      unfold allocList at h
      simp only [Except.ok.injEq, Prod.mk.injEq] at h
      obtain ⟨rfl, rfl⟩ := h
      exact ⟨rfl, rfl, fun j hj => absurd hj (Nat.not_lt_zero j)⟩
  | cons a rest ih =>
      unfold allocList at h
      rcases hsp : splitHostPort a with _ | ⟨host, prt⟩ <;> rw [hsp] at h
      · cases h
      rcases hfp : fp k with _ | pn <;> rw [hfp] at h
      · cases h
      rcases hrec : allocList rest fp (k + 1) with m | ⟨res', k''⟩ <;>
        rw [hrec] at h
      · cases h
      simp only [Except.ok.injEq, Prod.mk.injEq] at h
      obtain ⟨rfl, rfl⟩ := h
      obtain ⟨ihl, ihk, ihj⟩ := ih hrec
      refine ⟨by simp [ihl], by simp [ihk]; omega, ?_⟩
      intro j hj hr
      cases j with
      | zero => exact ⟨host, prt, pn, by simpa using hsp, by simpa using hfp,
          by simp⟩
      | succ j =>
          obtain ⟨host', rest', pn', hsp', hfp', hres'⟩ :=
            ihj j (by simpa using hj) (by simpa [ihl] using hj)
          refine ⟨host', rest', pn', by simpa using hsp', ?_, by simpa using hres'⟩
          have : k + 1 + j = k + (j + 1) := by omega
          rw [← this]
          exact hfp'

/-- C6: with auto-ports enabled, either the allocation succeeds for every
entry of the three listener lists — each list keeps its length and order,
every entry is rebuilt from its original host part and a kernel-probed port,
the probes being consumed in order across P2P, RPC and wallet-RPC — or the
step fails, in which case the configuration is returned untouched (no
partial application, the `Set` write-backs of src/pod/main.go:344-352 only
run after the whole loop) and the failure short-circuits the rest of the
bootstrap (src/pod/main.go:322-355, 514-532). -/
theorem C6_autoPorts (st : St) (env : Env)
    (hap : st.cfg.autoPorts = true) :
    (∀ st', autoPortsStep env st = .ok st' →
      (st'.cfg.p2pListeners.length = st.cfg.p2pListeners.length ∧
        st'.cfg.rpcListeners.length = st.cfg.rpcListeners.length ∧
        st'.cfg.walletRPCListeners.length =
          st.cfg.walletRPCListeners.length) ∧
      (∀ j (hj : j < st.cfg.p2pListeners.length)
          (hr : j < st'.cfg.p2pListeners.length),
        ∃ host rest pn,
          splitHostPort (st.cfg.p2pListeners.get ⟨j, hj⟩) =
            some (host, rest) ∧
          env.freePorts j = some pn ∧
          st'.cfg.p2pListeners.get ⟨j, hr⟩ =
            joinHostPort host (toString pn)) ∧
      (∀ j (hj : j < st.cfg.rpcListeners.length)
          (hr : j < st'.cfg.rpcListeners.length),
        ∃ host rest pn,
          splitHostPort (st.cfg.rpcListeners.get ⟨j, hj⟩) =
            some (host, rest) ∧
          env.freePorts (st.cfg.p2pListeners.length + j) = some pn ∧
          st'.cfg.rpcListeners.get ⟨j, hr⟩ =
            joinHostPort host (toString pn)) ∧
      (∀ j (hj : j < st.cfg.walletRPCListeners.length)
          (hr : j < st'.cfg.walletRPCListeners.length),
        ∃ host rest pn,
          splitHostPort (st.cfg.walletRPCListeners.get ⟨j, hj⟩) =
            some (host, rest) ∧
          env.freePorts (st.cfg.p2pListeners.length +
            st.cfg.rpcListeners.length + j) = some pn ∧
          st'.cfg.walletRPCListeners.get ⟨j, hr⟩ =
            joinHostPort host (toString pn))) ∧
    (∀ m st', autoPortsStep env st = .err m st' → st' = st) ∧
    (∀ m st' (f : St → StepRes), autoPortsStep env st = .err m st' →
      StepRes.andThen (autoPortsStep env st) f = .err m st') := by
  unfold autoPortsStep
  rw [if_pos hap]
  rcases h1 : allocList st.cfg.p2pListeners env.freePorts 0 with
    m1 | ⟨p2p', k1⟩
  · dsimp only
    refine ⟨?_, ?_, ?_⟩
    · intro st' h
      cases h
    · intro m st' h
      cases h
      rfl
    · intro m st' f h
      cases h
      rfl
  dsimp only
  rcases h2 : allocList st.cfg.rpcListeners env.freePorts k1 with
    m2 | ⟨rpc', k2⟩
  · dsimp only
    refine ⟨?_, ?_, ?_⟩
    · intro st' h
      cases h
    · intro m st' h
      cases h
      rfl
    · intro m st' f h
      cases h
      rfl
  dsimp only
  rcases h3 : allocList st.cfg.walletRPCListeners env.freePorts k2 with
    m3 | ⟨w', k3⟩
  · dsimp only
    refine ⟨?_, ?_, ?_⟩
    · intro st' h
      cases h
    · intro m st' h
      cases h
      rfl
    · intro m st' f h
      cases h
      rfl
  dsimp only
  obtain ⟨l1, hk1, j1⟩ := allocList_ok_spec h1
  obtain ⟨l2, hk2, j2⟩ := allocList_ok_spec h2
  obtain ⟨l3, hk3, j3⟩ := allocList_ok_spec h3
  refine ⟨?_, ?_, ?_⟩
  · intro st' h
    cases h
    refine ⟨⟨by simpa using l1, by simpa using l2, by simpa using l3⟩,
      ?_, ?_, ?_⟩
    · intro j hj hr
      obtain ⟨host, rest, pn, hs, hf, hres⟩ := j1 j hj (by simpa using hr)
      exact ⟨host, rest, pn, hs, by simpa using hf, by simpa using hres⟩
    · intro j hj hr
      obtain ⟨host, rest, pn, hs, hf, hres⟩ := j2 j hj (by simpa using hr)
      refine ⟨host, rest, pn, hs, ?_, by simpa using hres⟩
      rw [hk1] at hf
      simpa using hf
    · intro j hj hr
      obtain ⟨host, rest, pn, hs, hf, hres⟩ := j3 j hj (by simpa using hr)
      refine ⟨host, rest, pn, hs, ?_, by simpa using hres⟩
      rw [hk2, hk1] at hf
      simpa using hf
  · intro m st' h
    cases h
  · intro m st' f h
    cases h

/-- Initial state of a configuration with auto-ports enabled, used by the
C6 witness. -/
def apSt : St := initSt { sampleCfg with autoPorts := true } sampleEnv

/-- Witness for C6: the successful allocation keeps the list lengths, and a
failing free-port probe returns the state untouched. -/
theorem C6_autoPorts_witness :
    (autoPortsStep sampleEnv apSt).state.cfg.p2pListeners.length = 1 ∧
    (autoPortsStep { sampleEnv with freePorts := fun _ => none }
      apSt).state = apSt := by
  constructor
  · have h := (C6_autoPorts apSt sampleEnv (by decide)).1
      ((autoPortsStep sampleEnv apSt).state) (by decide)
    exact h.1.1.trans (by decide)
  · exact (C6_autoPorts apSt { sampleEnv with freePorts := fun _ => none }
      (by decide)).2.1 "GetFreePort failed"
      ((autoPortsStep { sampleEnv with freePorts := fun _ => none }
        apSt).state) (by decide)

end Pod
